import Mathlib

/-!
Shallow embedding of the SeaweedFS service broker (nkuhn-vmw/bosh-seaweedfs,
Go sources under src/seaweedfs-broker) into Lean 4, together with theorems
settling the frozen claims about its specification.

Modelling conventions:
* Go strings are modelled as Lean `String`; the identifiers sliced by the code
  (instance IDs, space GUIDs, binding IDs) are ASCII, so byte indexing and
  character indexing coincide.
* A Go slice expression `s[:n]` panics when `n > len(s)`; it is modelled by
  `goSlice s n : Option String`, `none` standing for the panic.
* Functions that can panic therefore return `Option`; fallible operations
  return `Except String`.
* `map[string]T` fields of the state (the store's `Instances`/`Bindings`
  maps) are modelled as association lists with unique keys, with Go map
  semantics: assignment replaces, `delete` removes, lookup finds.
* Network side effects (S3 bucket calls, IAM calls, launched background
  goroutines) are modelled by explicit environment records supplying the
  results of the external calls, and by an `Effect` trace listing the calls
  the broker issued, in order.
* `time.Now()` is passed in as an abstract `Nat` tick where the code stores
  timestamps.
-/

/-- One entry of `map[string]any` request parameters; the broker never
inspects these values, it only stores them, so an opaque key/value list
suffices. -/
abbrev Params := List (String × String)

/-- store.ServiceInstance (src/seaweedfs-broker/store, `unnamed/part_010`). -/
structure ServiceInstance where
  id               : String := ""
  serviceID        : String := ""
  planID           : String := ""
  organizationGUID : String := ""
  spaceGUID        : String := ""
  parameters       : Params := []
  context          : Params := []
  createdAt        : Nat := 0
  updatedAt        : Nat := 0
  bucketName       : String := ""
  deploymentName   : String := ""
  s3Endpoint       : String := ""
  iamEndpoint      : String := ""
  filerEndpoint    : String := ""
  consoleURL       : String := ""
  filerURL         : String := ""
  volumeURL        : String := ""
  adminAccessKey   : String := ""
  adminSecretKey   : String := ""
  state            : String := ""
  stateMessage     : String := ""
  deriving Repr, DecidableEq

/-- store.ServiceBinding. -/
structure ServiceBinding where
  id          : String := ""
  instanceID  : String := ""
  appGUID     : String := ""
  parameters  : Params := []
  createdAt   : Nat := 0
  accessKey   : String := ""
  secretKey   : String := ""
  iamUserName : String := ""
  deriving Repr, DecidableEq

/-- store.State: the broker state persisted by the FileStore, two string-keyed
maps modelled as association lists with unique keys. -/
structure StoreState where
  instances : List (String × ServiceInstance) := []
  bindings  : List (String × ServiceBinding) := []
  deriving Repr, DecidableEq

/-- Go map lookup `m[k]` (second return value distinguishes missing keys). -/
def mapLookup {α : Type} (m : List (String × α)) (k : String) : Option α :=
  match m with
  | [] => none
  | (k', v) :: rest => if k' = k then some v else mapLookup rest k

/-- Go map assignment `m[k] = v`: replaces an existing entry, else appends. -/
def mapUpsert {α : Type} (m : List (String × α)) (k : String) (v : α) :
    List (String × α) :=
  match m with
  | [] => [(k, v)]
  | (k', v') :: rest =>
    if k' = k then (k, v) :: rest else (k', v') :: mapUpsert rest k v

/-- Go `delete(m, k)`. -/
def mapDelete {α : Type} (m : List (String × α)) (k : String) :
    List (String × α) :=
  match m with
  | [] => []
  | (k', v') :: rest =>
    if k' = k then mapDelete rest k else (k', v') :: mapDelete rest k

/-- FileStore.GetInstance: a missing key yields `(nil, nil)` — here `none`,
and never an error. -/
def GetInstance (s : StoreState) (instanceID : String) :
    Option ServiceInstance :=
  mapLookup s.instances instanceID

/-- FileStore.SaveInstance: stamps UpdatedAt, then upserts under the
instance's own ID. (The file write `s.save()` is abstracted as succeeding.) -/
def SaveInstance (s : StoreState) (now : Nat) (inst : ServiceInstance) :
    StoreState :=
  let inst := { inst with updatedAt := now }
  { s with instances := mapUpsert s.instances inst.id inst }

/-- FileStore.DeleteInstance. -/
def DeleteInstance (s : StoreState) (instanceID : String) : StoreState :=
  { s with instances := mapDelete s.instances instanceID }

/-- FileStore.GetBinding. -/
def GetBinding (s : StoreState) (bindingID : String) : Option ServiceBinding :=
  mapLookup s.bindings bindingID

/-- FileStore.SaveBinding. -/
def SaveBinding (s : StoreState) (binding : ServiceBinding) : StoreState :=
  { s with bindings := mapUpsert s.bindings binding.id binding }

/-- FileStore.DeleteBinding. -/
def DeleteBinding (s : StoreState) (bindingID : String) : StoreState :=
  { s with bindings := mapDelete s.bindings bindingID }

/-- FileStore.ListBindingsForInstance: all bindings whose InstanceID matches. -/
def ListBindingsForInstance (s : StoreState) (instanceID : String) :
    List ServiceBinding :=
  (s.bindings.filter (fun e => e.2.instanceID = instanceID)).map (·.2)

/-- config.CFConfig. -/
structure CFConfig where
  systemDomain   : String := ""
  appsDomain     : String := ""
  deploymentName : String := ""
  deriving Repr, DecidableEq

/-- config.NATSTLSConfig. -/
structure NATSTLSConfig where
  enabled    : Bool := false
  clientCert : String := ""
  clientKey  : String := ""
  caCert     : String := ""
  deriving Repr, DecidableEq

/-- config.NATSConfig. -/
structure NATSConfig where
  machines : List String := []
  port     : Int := 0
  user     : String := ""
  password : String := ""
  tls      : NATSTLSConfig := {}
  deriving Repr, DecidableEq

/-- config.SharedClusterConfig (fields the broker core reads). -/
structure SharedClusterConfig where
  enabled     : Bool := false
  s3Endpoint  : String := ""
  iamEndpoint : String := ""
  accessKey   : String := ""
  secretKey   : String := ""
  useSSL      : Bool := false
  region      : String := ""
  deriving Repr, DecidableEq

/-- config.BOSHConfig (deployment-template fields; URL decides whether a BOSH
client is initialized). -/
structure BOSHConfig where
  url                   : String := ""
  deploymentNameStem    : String := ""
  releaseName           : String := ""
  releaseVersion        : String := ""
  stemcellOS            : String := ""
  stemcellVersion       : String := ""
  routingReleaseVersion : String := ""
  deriving Repr, DecidableEq

/-- config.DedicatedPlanConfig. -/
structure DedicatedPlanConfig where
  vmType      : String := ""
  diskType    : String := ""
  masterNodes : Int := 0
  volumeNodes : Int := 0
  filerNodes  : Int := 0
  replication : String := ""
  network     : String := ""
  azs         : List String := []
  deriving Repr, DecidableEq

/-- config.PlanConfig (catalog-plan fields the broker core reads). -/
structure PlanConfig where
  id              : String := ""
  name            : String := ""
  planType        : String := ""
  dedicatedConfig : Option DedicatedPlanConfig := none
  deriving Repr, DecidableEq

/-- config.ServiceConfig (catalog-service fields the broker core reads). -/
structure ServiceConfig where
  id    : String := ""
  name  : String := ""
  plans : List PlanConfig := []
  deriving Repr, DecidableEq

/-- config.Config (the subset read by the broker's orchestration logic). -/
structure Config where
  services      : List ServiceConfig := []
  sharedCluster : SharedClusterConfig := {}
  bosh          : BOSHConfig := {}
  cf            : CFConfig := {}
  nats          : NATSConfig := {}
  deriving Repr, DecidableEq

/-- broker.New initializes the shared-cluster S3 client iff
`cfg.SharedCluster.S3Endpoint != ""`. -/
def s3ClientConfigured (c : Config) : Prop := c.sharedCluster.s3Endpoint ≠ ""

/-- broker.New initializes the IAM client exactly when it initializes the S3
client (same `if` block). -/
def iamClientConfigured (c : Config) : Prop := c.sharedCluster.s3Endpoint ≠ ""

instance (c : Config) : Decidable (s3ClientConfigured c) := by
  unfold s3ClientConfigured; infer_instance

instance (c : Config) : Decidable (iamClientConfigured c) := by
  unfold iamClientConfigured; infer_instance

/-- Go `s[:n]`: defined only when `n ≤ len(s)`; `none` models the runtime
panic `slice bounds out of range`. -/
def goSlice (s : String) (n : Nat) : Option String :=
  if n ≤ s.length then some (s.take n) else none

/-- Broker.findPlan: scan services for the service ID, then that service's
plans for the plan ID; first hit wins. -/
def findPlanInPlans (plans : List PlanConfig) (planID : String) :
    Option PlanConfig :=
  match plans with
  | [] => none
  | p :: rest => if p.id = planID then some p else findPlanInPlans rest planID

/-- Broker.findPlan over the whole catalog. -/
def findPlan (c : Config) (serviceID planID : String) : Option PlanConfig :=
  match c.services with
  | [] => none
  | _ => findPlanGo c.services serviceID planID
where
  findPlanGo : List ServiceConfig → String → String → Option PlanConfig
  | [], _, _ => none
  | s :: rest, sid, pid =>
    match (if s.id = sid then findPlanInPlans s.plans pid else none) with
    | some p => some p
    | none => findPlanGo rest sid pid

/-- Broker.getDashboardURL. Slices `instance.ID[:8]` on the generated-console
path, so it is partial there. -/
def getDashboardURL (c : Config) (inst : ServiceInstance) : Option String :=
  if inst.deploymentName ≠ "" ∧ inst.consoleURL ≠ "" then
    some inst.consoleURL
  else if inst.deploymentName ≠ "" then
    if c.cf.systemDomain ≠ "" then
      (goSlice inst.id 8).map
        (fun p => "https://seaweedfs-" ++ p ++ "." ++ c.cf.systemDomain)
    else some ("")
  else some ("")

/-- Trace of external calls issued by the broker, in program order.
Launched background goroutines appear as `launch…` markers (sequential
semantics: their bodies are separate functions, not interleaved). -/
inductive Effect where
  | makeBucket (name : String)
  | removeObject (bucket key : String)
  | removeBucket (name : String)
  | launchProvisionDedicated (instanceID : String)
  | launchDeprovisionDedicated (instanceID : String)
  | iamCreateUser (user : String)
  | iamCreateAccessKey (user : String)
  | iamPutUserPolicy (user policy bucket : String)
  | iamDeleteUserPolicy (user policy : String)
  | iamDeleteAccessKey (user key : String)
  | iamDeleteUser (user : String)
  deriving Repr, DecidableEq

/-- Results of the shared-cluster S3 API calls (minio client): the
environment the broker runs against. -/
structure S3Env where
  makeBucket : String → Except String Unit := fun _ => .ok ()
  bucketExists : String → Except String Bool := fun _ => .ok true
  listObjects : String → List String := fun _ => []
  removeObject : String → String → Except String Unit := fun _ _ => .ok ()
  removeBucket : String → Except String Unit := fun _ => .ok ()

/-- Results of the IAM API calls issued during bind.
The IAM client's CreateUser implementation is not present under src/ (only
its caller is); per §4.3 of the spec it creates the named identity-API user.
Modelled from the spec: `createUser` returns the call's success or failure,
`createAccessKey` returns the `(accessKeyID, secretAccessKey)` pair issued by
the identity API for the user. -/
structure IAMEnv where
  createUser : String → Except String Unit := fun _ => .ok ()
  createAccessKey : String → Except String (String × String) :=
    fun _ => .ok ("", "")
  putUserPolicy : String → String → String → Except String Unit :=
    fun _ _ _ => .ok ()
  dedicatedBucketExists : String → Except String Bool := fun _ => .ok true
  dedicatedMakeBucket : String → Except String Unit := fun _ => .ok ()

/-- Results of the IAM revocation calls issued during unbind (all of them are
best-effort in the code: their results are only logged).
`deleteUser` is likewise modelled from the spec (§4.3), its implementation
not being under src/. -/
structure IAMDelEnv where
  deleteUserPolicy : String → String → Except String Unit := fun _ _ => .ok ()
  deleteAccessKey : String → String → Except String Unit := fun _ _ => .ok ()
  deleteUser : String → Except String Unit := fun _ => .ok ()

/-- An HTTP response as the handlers produce it (status plus the JSON fields
the handlers actually set). -/
structure HttpResp where
  status       : Nat
  dashboardURL : Option String := none
  operation    : Option String := none
  errorCode    : Option String := none
  deriving Repr, DecidableEq

/-- broker.ProvisionRequest. -/
structure ProvisionRequest where
  serviceID        : String := ""
  planID           : String := ""
  organizationGUID : String := ""
  spaceGUID        : String := ""
  parameters       : Params := []
  context          : Params := []
  deriving Repr, DecidableEq

/-- broker.BindRequest. -/
structure BindRequest where
  serviceID  : String := ""
  planID     : String := ""
  appGUID    : String := ""
  parameters : Params := []
  deriving Repr, DecidableEq

/-- Broker.provisionSharedBucket: names the bucket
`cf-<SpaceGUID[:8]>-<ID[:8]>` (partial: Go slicing), stores the name on the
instance, then calls MakeBucket, tolerating an already-existing bucket.
Returns `none` for a panic; otherwise the updated instance or the error,
with the trace of S3 calls made. -/
def provisionSharedBucket (c : Config) (env : S3Env)
    (inst : ServiceInstance) :
    Option ((Except String ServiceInstance) × List Effect) :=
  if ¬ s3ClientConfigured c then
    some (.error ("shared cluster not configured"), [])
  else
    match goSlice inst.spaceGUID 8, goSlice inst.id 8 with
    | some sg8, some id8 =>
      let bucketName := "cf-" ++ sg8 ++ "-" ++ id8
      let inst := { inst with bucketName := bucketName }
      match env.makeBucket bucketName with
      | .ok _ => some (.ok inst, [.makeBucket bucketName])
      | .error e =>
        match env.bucketExists bucketName with
        | .ok true => some (.ok inst, [.makeBucket bucketName])
        | _ =>
          some (.error ("failed to create bucket: " ++ e),
            [.makeBucket bucketName])
    | _, _ => none

/-- Broker.provisionHandler, sequential semantics. The request body is given
already decoded (the invalid-JSON 400 branch is not modelled). `none` models
a panic inside the handler. -/
def provisionHandler (c : Config) (env : S3Env) (now : Nat) (st : StoreState)
    (instanceID : String) (req : ProvisionRequest) (acceptsAsync : Bool) :
    Option (HttpResp × StoreState × List Effect) :=
  match GetInstance st instanceID with
  | some existing =>
    (getDashboardURL c existing).map
      (fun url => ({ status := 200, dashboardURL := some url }, st, []))
  | none =>
    match findPlan c req.serviceID req.planID with
    | none => some ({ status := 400, errorCode := some ("InvalidPlan") }, st, [])
    | some plan =>
      if plan.planType = "dedicated" ∧ ¬ acceptsAsync then
        some ({ status := 422, errorCode := some ("AsyncRequired") }, st, [])
      else
        let inst : ServiceInstance :=
          { id := instanceID
            serviceID := req.serviceID
            planID := req.planID
            organizationGUID := req.organizationGUID
            spaceGUID := req.spaceGUID
            parameters := req.parameters
            context := req.context
            createdAt := now
            state := "provisioning" }
        if plan.planType = "shared" then
          match provisionSharedBucket c env inst with
          | none => none
          | some (.error _e, effs) =>
            some ({ status := 500, errorCode := some ("ProvisionError") },
              st, effs)
          | some (.ok inst, effs) =>
            let inst := { inst with state := "succeeded" }
            let st' := SaveInstance st now inst
            (getDashboardURL c inst).map
              (fun url =>
                ({ status := 201, dashboardURL := some url }, st', effs))
        else
          let st' := SaveInstance st now inst
          (getDashboardURL c inst).map
            (fun url =>
              ({ status := 202, dashboardURL := some url,
                 operation := some ("provision") }, st',
               [.launchProvisionDedicated instanceID]))

/-- Broker.deprovisionSharedBucket: best-effort object sweep, then
RemoveBucket; only the RemoveBucket failure is reported. -/
def deprovisionSharedBucket (c : Config) (env : S3Env)
    (inst : ServiceInstance) : (Except String Unit) × List Effect :=
  if ¬ s3ClientConfigured c ∨ inst.bucketName = "" then (.ok (), [])
  else
    let objs := env.listObjects inst.bucketName
    let sweep := objs.map (fun k => Effect.removeObject inst.bucketName k)
    match env.removeBucket inst.bucketName with
    | .ok _ => (.ok (), sweep ++ [.removeBucket inst.bucketName])
    | .error e =>
      (.error ("failed to delete bucket: " ++ e),
       sweep ++ [.removeBucket inst.bucketName])

instance (plan : Option PlanConfig) :
    Decidable (∃ p, plan = some p ∧ p.planType = "dedicated") := by
  cases plan with
  | none => exact .isFalse (by simp)
  | some p => exact decidable_of_iff (p.planType = "dedicated") (by simp)

/-- Broker.deprovisionHandler, sequential semantics. -/
def deprovisionHandler (c : Config) (env : S3Env) (now : Nat)
    (st : StoreState) (instanceID : String) (acceptsAsync : Bool) :
    HttpResp × StoreState × List Effect :=
  match GetInstance st instanceID with
  | none => ({ status := 410, errorCode := some ("InstanceNotFound") }, st, [])
  | some inst =>
    let plan := findPlan c inst.serviceID inst.planID
    let bindings := ListBindingsForInstance st instanceID
    if bindings.length > 0 then
      ({ status := 400, errorCode := some ("BindingsExist") }, st, [])
    else
      if (∃ p, plan = some p ∧ p.planType = "dedicated") then
        if ¬ acceptsAsync then
          ({ status := 422, errorCode := some ("AsyncRequired") }, st, [])
        else
          let inst := { inst with state := "deprovisioning" }
          let st' := SaveInstance st now inst
          ({ status := 202, operation := some ("deprovision") }, st',
           [.launchDeprovisionDedicated instanceID])
      else
        -- shared path: bucket deletion is best-effort (failure only logged)
        let (_, effs) := deprovisionSharedBucket c env inst
        let st' := DeleteInstance st instanceID
        ({ status := 200 }, st', effs)

/-- Broker.createS3Credentials. Dedicated instances without an IAM endpoint
fall back to the instance's admin credentials and create no IAM user;
otherwise an IAM user named `cf-binding-<bindingID[:min(len,16)]>` is
created, an access key requested, and a bucket policy attached best-effort.
Returns the updated binding (or the error) with the IAM calls traced. -/
def createS3Credentials (c : Config) (env : IAMEnv)
    (inst : ServiceInstance) (binding : ServiceBinding) :
    (Except String ServiceBinding) × List Effect :=
  if inst.deploymentName ≠ "" ∧ inst.iamEndpoint = "" then
    (.ok { binding with accessKey := inst.adminAccessKey,
                        secretKey := inst.adminSecretKey }, [])
  else if inst.deploymentName = "" ∧ ¬ iamClientConfigured c then
    (.error ("IAM client not initialized - cannot create per-binding credentials"),
     [])
  else
    let userName := "cf-binding-" ++ binding.id.take 16
    match env.createUser userName with
    | .error e =>
      (.error ("failed to create IAM user: " ++ e), [.iamCreateUser userName])
    | .ok _ =>
      match env.createAccessKey userName with
      | .error e =>
        (.error ("failed to create S3 credentials via IAM API: " ++ e),
         [.iamCreateUser userName, .iamCreateAccessKey userName])
      | .ok ak =>
        let binding := { binding with iamUserName := userName,
                                      accessKey := ak.1, secretKey := ak.2 }
        let policyName := "bucket-access-" ++ binding.id.take 8
        -- PutUserPolicy failure is only logged, never propagated
        (.ok binding,
         [.iamCreateUser userName, .iamCreateAccessKey userName,
          .iamPutUserPolicy userName policyName inst.bucketName])

/-- Broker.deleteS3Credentials: nothing to do when no IAM user was recorded
or no IAM client is reachable; otherwise best-effort revocation in the order
user policy, access key (when recorded), user. Every branch returns success:
revocation failures are only logged. -/
def deleteS3Credentials (c : Config) (env : IAMDelEnv)
    (inst : ServiceInstance) (binding : ServiceBinding) :
    (Except String Unit) × List Effect :=
  if binding.iamUserName = "" then (.ok (), [])
  else if inst.deploymentName ≠ "" ∧ inst.iamEndpoint = "" then (.ok (), [])
  else if inst.deploymentName = "" ∧ ¬ iamClientConfigured c then (.ok (), [])
  else
    let policyName := "bucket-access-" ++ binding.id.take 8
    -- results of the three calls are discarded (logged) by the code
    let _ := env.deleteUserPolicy binding.iamUserName policyName
    let _ := env.deleteAccessKey binding.iamUserName binding.accessKey
    let _ := env.deleteUser binding.iamUserName
    (.ok (),
     [.iamDeleteUserPolicy binding.iamUserName policyName]
       ++ (if binding.accessKey ≠ "" then
            [.iamDeleteAccessKey binding.iamUserName binding.accessKey]
          else [])
       ++ [.iamDeleteUser binding.iamUserName])

/-- The dedicated-cluster ensure-bucket block at the top of bindHandler:
best-effort existence check and creation, all failures only logged. -/
def ensureDedicatedBucket (env : IAMEnv) (inst : ServiceInstance) :
    List Effect :=
  if inst.deploymentName ≠ "" ∧ inst.iamEndpoint ≠ "" ∧ inst.bucketName ≠ "" then
    match env.dedicatedBucketExists inst.bucketName with
    | .ok false => [.makeBucket inst.bucketName]
    | _ => []
  else []

/-- Broker.bindHandler, sequential semantics. `none` models a handler panic.
(The invalid-JSON 400 branch is not modelled: the request arrives decoded.) -/
def bindHandler (c : Config) (env : IAMEnv) (now : Nat) (st : StoreState)
    (instanceID bindingID : String) (req : BindRequest) :
    HttpResp × StoreState × List Effect :=
  match GetInstance st instanceID with
  | none => ({ status := 404, errorCode := some ("InstanceNotFound") }, st, [])
  | some inst =>
    if inst.state ≠ "succeeded" then
      ({ status := 422, errorCode := some ("InstanceNotReady") }, st, [])
    else
      match GetBinding st bindingID with
      | some _existing => ({ status := 200 }, st, [])
      | none =>
        let binding : ServiceBinding :=
          { id := bindingID
            instanceID := instanceID
            appGUID := req.appGUID
            parameters := req.parameters
            createdAt := now }
        let ensureEffs := ensureDedicatedBucket env inst
        match createS3Credentials c env inst binding with
        | (.error _e, effs) =>
          ({ status := 500, errorCode := some ("BindError") }, st,
           ensureEffs ++ effs)
        | (.ok binding, effs) =>
          let st' := SaveBinding st binding
          ({ status := 201 }, st', ensureEffs ++ effs)

/-- Broker.unbindHandler, sequential semantics. -/
def unbindHandler (c : Config) (env : IAMDelEnv) (st : StoreState)
    (instanceID bindingID : String) :
    HttpResp × StoreState × List Effect :=
  match GetInstance st instanceID with
  | none => ({ status := 410, errorCode := some ("InstanceNotFound") }, st, [])
  | some inst =>
    match GetBinding st bindingID with
    | none => ({ status := 410, errorCode := some ("BindingNotFound") }, st, [])
    | some binding =>
      -- deleteS3Credentials errors are only logged
      let (_, effs) := deleteS3Credentials c env inst binding
      let st' := DeleteBinding st bindingID
      ({ status := 200 }, st', effs)

/-- bosh.Task (fields read by WaitForTask); named BoshTask since `Task` is
taken by the Lean core library. -/
structure BoshTask where
  id     : Int := 0
  state  : String := ""
  result : String := ""
  deriving Repr, DecidableEq

/-- bosh.Client.WaitForTask. The poll loop runs while `time.Now() < deadline`,
sleeping 5s between polls; it is modelled by fuel counting the remaining poll
opportunities before the wall-clock deadline, and by `getTask k`, the
director's answer to the k-th poll. Exhausted fuel is the deadline elapsing:
`task %d timed out`. A failure state yields `task %d failed: %s - %s` with
the state and the task's result text; `done` returns the task. -/
def WaitForTask (getTask : Nat → Except String BoshTask) (taskID : Int) :
    Nat → Nat → Except String BoshTask
  | 0, _ => .error ("task " ++ toString taskID ++ " timed out")
  | fuel + 1, k =>
    match getTask k with
    | .error e => .error e
    | .ok task =>
      if task.state = "done" then .ok task
      else if task.state = "error" ∨ task.state = "cancelled" ∨
              task.state = "timeout" then
        .error ("task " ++ toString taskID ++ " failed: " ++ task.state ++
                " - " ++ task.result)
      else WaitForTask getTask taskID fuel (k + 1)

/-- The default DedicatedPlanConfig substituted when a plan carries none
(generateDedicatedManifest). -/
def defaultDedicatedConfig : DedicatedPlanConfig :=
  { vmType := "default"
    diskType := "default"
    masterNodes := 1
    volumeNodes := 3
    filerNodes := 1
    replication := "001"
    network := "default"
    azs := ["z1"] }

/-- Normalization `cfg :=` at the top of generateDedicatedManifest:
substitute the default config, then default empty replication to "001". -/
def normalizeDedicatedConfig (plan : PlanConfig) : DedicatedPlanConfig :=
  let cfg := plan.dedicatedConfig.getD defaultDedicatedConfig
  if cfg.replication = "" then { cfg with replication := "001" } else cfg

/-- broker.toYAMLArray. -/
def toYAMLArray (items : List String) : String :=
  if items.length = 0 then "[z1]"
  else "[" ++ String.intercalate (", ") items ++ "]"

/-- broker.formatCertForYAML: indent every line of the trimmed PEM text. -/
def formatCertForYAML (cert : String) (indent : Nat) : String :=
  let pad := String.mk (List.replicate indent ' ')
  String.intercalate ("\n")
    ((cert.trim.splitOn ("\n")).map (fun line => pad ++ line))

/-- Condition `hasCFDeployment && hasNATSConfig` as computed in
generateDedicatedManifest (provisionDedicatedCluster omits the
`len(Machines) > 0` conjunct; this is the generator's version). -/
def canRouteRegister (c : Config) : Prop :=
  (c.cf.deploymentName ≠ "" ∧ c.cf.systemDomain ≠ "") ∧
  (c.nats.tls.enabled = true ∧ c.nats.tls.clientCert ≠ "" ∧
   c.nats.machines.length > 0)

instance (c : Config) : Decidable (canRouteRegister c) := by
  unfold canRouteRegister; infer_instance

/-- Value `routingReleaseVersion` with its `"latest"` default. -/
def routingReleaseVersionOf (c : Config) : String :=
  if c.bosh.routingReleaseVersion = "" then "latest"
  else c.bosh.routingReleaseVersion

/-- The base `releases:` section of the manifest. -/
def releasesBase (c : Config) : String :=
  "releases:\n- name: " ++ c.bosh.releaseName ++ "\n  version: \"" ++
    c.bosh.releaseVersion ++ "\""

/-- The routing/bpm releases appended when route registration is possible. -/
def routingReleasesExtra (c : Config) : String :=
  "\n- name: routing\n  version: \"" ++ routingReleaseVersionOf c ++
    "\"\n- name: bpm\n  version: \"latest\""

/-- The base `jobs:` section of the seaweedfs-s3 instance group, embedding
the admin identity credentials. -/
def s3JobsBase (c : Config) (inst : ServiceInstance) : String :=
  "  jobs:\n  - name: seaweedfs-s3\n    release: " ++ c.bosh.releaseName ++
  "\n    properties:\n      seaweedfs:\n        s3:\n          iam:\n" ++
  "            enabled: true\n          config:\n            enabled: true\n" ++
  "            identities:\n            - name: admin\n" ++
  "              credentials:\n              - accessKey: " ++
  inst.adminAccessKey ++
  "\n                secretKey: " ++ inst.adminSecretKey ++
  "\n              actions:\n              - Admin\n              - Read\n" ++
  "              - Write"

/-- Value `natsPort` with its 4224 default. -/
def natsPortOf (c : Config) : Int :=
  if c.nats.port = 0 then 4224 else c.nats.port

/-- Lines `natsUserYAML`: user/password appended when a NATS user is configured. -/
def natsUserYAML (c : Config) : String :=
  if c.nats.user ≠ "" then
    "\n      user: " ++ c.nats.user ++ "\n      password: " ++ c.nats.password
  else ""

/-- The route_registrar/bpm jobs and NATS properties appended to the
seaweedfs-s3 group when route registration is possible. -/
def routeRegistrarExtra (c : Config) (s3RouteHost : String) : String :=
  let natsMachinesYAML := "\n      - " ++ "nats.service.cf.internal"
  "\n  - name: route_registrar\n    release: routing\n    consumes:\n" ++
  "      nats: nil\n      nats-tls: nil\n  - name: bpm\n    release: bpm\n" ++
  "  properties:\n    nats:\n      machines:" ++ natsMachinesYAML ++
  "\n      port: " ++ toString (natsPortOf c) ++ natsUserYAML c ++
  "\n      tls:\n        enabled: true\n        client_cert: |\n" ++
  formatCertForYAML c.nats.tls.clientCert 10 ++
  "\n        client_key: |\n" ++ formatCertForYAML c.nats.tls.clientKey 10 ++
  "\n        ca_cert: |\n" ++ formatCertForYAML c.nats.tls.caCert 10 ++
  "\n    route_registrar:\n      routes:\n      - name: seaweedfs-s3-ondemand\n" ++
  "        port: 8333\n        registration_interval: 20s\n        uris:\n" ++
  "        - " ++ s3RouteHost

/-- The outer manifest template of generateDedicatedManifest, as a function
of the two variable sections. -/
def manifestTemplate (c : Config) (inst : ServiceInstance)
    (cfg : DedicatedPlanConfig) (releasesSection s3JobsSection : String) :
    String :=
  "---\nname: " ++ inst.deploymentName ++ "\n\n" ++ releasesSection ++
  "\n\nstemcells:\n- alias: default\n  os: " ++ c.bosh.stemcellOS ++
  "\n  version: \"" ++ c.bosh.stemcellVersion ++ "\"\n\nupdate:\n" ++
  "  canaries: 1\n  max_in_flight: 1\n  canary_watch_time: 30000-300000\n" ++
  "  update_watch_time: 30000-300000\n\ninstance_groups:\n" ++
  "- name: seaweedfs-master\n  instances: " ++ toString cfg.masterNodes ++
  "\n  vm_type: " ++ cfg.vmType ++ "\n  stemcell: default\n  azs: " ++
  toYAMLArray cfg.azs ++ "\n  networks:\n  - name: " ++ cfg.network ++
  "\n  persistent_disk_type: " ++ cfg.diskType ++
  "\n  jobs:\n  - name: seaweedfs-master\n    release: " ++
  c.bosh.releaseName ++
  "\n    properties:\n      seaweedfs:\n        master:\n          port: 9333\n" ++
  "          default_replication: \"" ++ cfg.replication ++ "\"\n\n" ++
  "- name: seaweedfs-volume\n  instances: " ++ toString cfg.volumeNodes ++
  "\n  vm_type: " ++ cfg.vmType ++ "\n  stemcell: default\n  azs: " ++
  toYAMLArray cfg.azs ++ "\n  networks:\n  - name: " ++ cfg.network ++
  "\n  persistent_disk_type: " ++ cfg.diskType ++
  "\n  jobs:\n  - name: seaweedfs-volume\n    release: " ++
  c.bosh.releaseName ++ "\n\n" ++
  "- name: seaweedfs-filer\n  instances: " ++ toString cfg.filerNodes ++
  "\n  vm_type: " ++ cfg.vmType ++ "\n  stemcell: default\n  azs: " ++
  toYAMLArray cfg.azs ++ "\n  networks:\n  - name: " ++ cfg.network ++
  "\n  persistent_disk_type: " ++ cfg.diskType ++
  "\n  jobs:\n  - name: seaweedfs-filer\n    release: " ++
  c.bosh.releaseName ++ "\n\n" ++
  "- name: seaweedfs-s3\n  instances: 1\n  vm_type: " ++ cfg.vmType ++
  "\n  stemcell: default\n  azs: " ++ toYAMLArray cfg.azs ++
  "\n  networks:\n  - name: " ++ cfg.network ++ "\n" ++ s3JobsSection ++ "\n"

/-- Broker.generateDedicatedManifest. Pure function of (runtime config,
instance identity, plan configuration); partial only through the Go slice
`instance.ID[:8]` taken when route registration is configured. -/
def generateDedicatedManifest (c : Config) (inst : ServiceInstance)
    (plan : PlanConfig) : Option String :=
  let cfg := normalizeDedicatedConfig plan
  let host? : Option String :=
    if canRouteRegister c then
      (goSlice inst.id 8).map
        (fun p => "seaweedfs-" ++ p ++ "." ++ c.cf.systemDomain)
    else some ("")
  host?.map (fun s3RouteHost =>
    let releasesSection :=
      releasesBase c ++
        (if canRouteRegister c then routingReleasesExtra c else "")
    let s3JobsSection :=
      s3JobsBase c inst ++
        (if canRouteRegister c ∧ s3RouteHost ≠ "" then
          routeRegistrarExtra c s3RouteHost
        else "")
    manifestTemplate c inst cfg releasesSection s3JobsSection)

/-- The deployment-name construction at the top of
provisionDedicatedCluster: `<DeploymentPrefix>-<instanceID[:8]>` (the config
field is named DeploymentPrefix in the source; renamed `deploymentNameStem`
here). Partial through the Go slice. -/
def dedicatedDeploymentName (c : Config) (inst : ServiceInstance) :
    Option String :=
  (goSlice inst.id 8).map (fun p => c.bosh.deploymentNameStem ++ "-" ++ p)

/-- The bucket-name construction inside provisionSharedBucket:
`cf-<SpaceGUID[:8]>-<ID[:8]>`. Partial through the two Go slices, the
SpaceGUID being sliced first. -/
def sharedBucketName (inst : ServiceInstance) : Option String :=
  (goSlice inst.spaceGUID 8).bind
    (fun sg8 => (goSlice inst.id 8).map (fun id8 => "cf-" ++ sg8 ++ "-" ++ id8))

/-! Concrete fixtures used by the witness and counterexample theorems. -/

/-- A shared catalog plan. -/
def wPlanShared : PlanConfig :=
  { id := "plan-shared", name := "shared", planType := "shared" }

/-- A dedicated catalog plan with an explicit dedicated configuration. -/
def wPlanDedicated : PlanConfig :=
  { id := "plan-dedicated"
    name := "dedicated"
    planType := "dedicated"
    dedicatedConfig := some
      { vmType := "large"
        diskType := "big"
        masterNodes := 1
        volumeNodes := 3
        filerNodes := 1
        replication := "002"
        network := "net1"
        azs := ["z1", "z2"] } }

/-- A catalog service carrying both plans. -/
def wService : ServiceConfig :=
  { id := "svc-1", name := "seaweedfs", plans := [wPlanShared, wPlanDedicated] }

/-- A broker configuration with shared cluster, BOSH, CF and NATS configured
(NATS TLS disabled by default; flipped on by the route-registration tests). -/
def wConfig : Config :=
  { services := [wService]
    sharedCluster := { s3Endpoint := "s3.shared.local", region := "us-east-1" }
    bosh :=
      { url := "https://bosh.local"
        deploymentNameStem := "seaweedfs"
        releaseName := "seaweedfs"
        releaseVersion := "4.07"
        stemcellOS := "ubuntu-jammy"
        stemcellVersion := "1.406"
        routingReleaseVersion := "0.292.0" }
    cf := { systemDomain := "sys.example.com", deploymentName := "cf-d1" }
    nats :=
      { machines := ["10.0.0.5"]
        port := 4224
        user := "nats"
        password := "natspw"
        tls :=
          { enabled := false
            clientCert := "CERTDATA"
            clientKey := "KEYDATA"
            caCert := "CADATA" } } }

/-- Overwrite only the NATS TLS `enabled` flag of a configuration. -/
def withNatsTLSEnabled (c : Config) (b : Bool) : Config :=
  { c with nats := { c.nats with tls := { c.nats.tls with enabled := b } } }

/-- A provisioned shared-plan instance in state succeeded. -/
def wInstShared : ServiceInstance :=
  { id := "instance-0001"
    serviceID := "svc-1"
    planID := "plan-shared"
    spaceGUID := "space-00001"
    bucketName := "cf-space-00-instance"
    state := "succeeded" }

/-- A shared-plan instance still provisioning. -/
def wInstProvisioning : ServiceInstance :=
  { wInstShared with id := "instance-0002", state := "provisioning" }

/-- A dedicated instance without an IAM endpoint (admin-fallback path). -/
def wInstDedicatedNoIAM : ServiceInstance :=
  { id := "instance-0003"
    serviceID := "svc-1"
    planID := "plan-dedicated"
    deploymentName := "seaweedfs-instance"
    s3Endpoint := "seaweedfs-instance.sys.example.com"
    iamEndpoint := ""
    bucketName := "default"
    adminAccessKey := "ADMINAK"
    adminSecretKey := "ADMINSK"
    state := "succeeded" }

/-- A dedicated instance with an IAM endpoint. -/
def wInstDedicatedIAM : ServiceInstance :=
  { wInstDedicatedNoIAM with id := "instance-0004", iamEndpoint := "10.0.0.9:8333" }

/-- A binding holding credentials and a recorded IAM user. -/
def wBindingWithUser : ServiceBinding :=
  { id := "binding-0001"
    instanceID := "instance-0001"
    accessKey := "AKISSUED1"
    secretKey := "SKISSUED1"
    iamUserName := "cf-binding-binding-0001" }

/-- A binding that never got an IAM user (admin-fallback credentials). -/
def wBindingNoUser : ServiceBinding :=
  { id := "binding-0002"
    instanceID := "instance-0003"
    accessKey := "ADMINAK"
    secretKey := "ADMINSK"
    iamUserName := "" }

/-- An S3 environment in which bucket creation fails and the bucket does not
exist. -/
def wS3EnvFail : S3Env :=
  { makeBucket := fun _ => .error ("connection refused")
    bucketExists := fun _ => .ok false }

/-- An IAM environment issuing per-user access keys. -/
def wIAMEnvOK : IAMEnv :=
  { createAccessKey := fun u => .ok ("AK-" ++ u, "SK-" ++ u) }

/-- An IAM revocation environment in which every revocation call fails. -/
def wIAMDelEnvFail : IAMDelEnv :=
  { deleteUserPolicy := fun _ _ => .error ("policy gone")
    deleteAccessKey := fun _ _ => .error ("key gone")
    deleteUser := fun _ => .error ("user gone") }

/-- A director whose task never leaves a non-terminal state; the parameter
is the task's result text, carried by every poll answer. -/
def wPollStuck (res : String) : Nat → Except String BoshTask :=
  fun _ => .ok { id := 42, state := "processing", result := res }

/-- A director whose task is in the failure state error. -/
def wPollFailed : Nat → Except String BoshTask :=
  fun _ => .ok { id := 42, state := "error", result := "deploy exploded" }

/-- A director whose task is done. -/
def wPollDone : Nat → Except String BoshTask :=
  fun _ => .ok { id := 42, state := "done", result := "succeeded" }

/-! Helper lemmas about the Go-map model. -/

theorem mapLookup_upsert_self {α : Type} (m : List (String × α)) (k : String)
    (v : α) : mapLookup (mapUpsert m k v) k = some v := by
  induction m with
  | nil => simp [mapUpsert, mapLookup]
  | cons hd tl ih =>
    obtain ⟨k', v'⟩ := hd
    by_cases h : k' = k
    · simp [mapUpsert, mapLookup, h]
    · simp [mapUpsert, mapLookup, h, ih]

theorem mapLookup_upsert_ne {α : Type} (m : List (String × α)) (k k' : String)
    (v : α) (h : k' ≠ k) :
    mapLookup (mapUpsert m k v) k' = mapLookup m k' := by
  induction m with
  | nil => simp [mapUpsert, mapLookup, Ne.symm h]
  | cons hd tl ih =>
    obtain ⟨k₀, v₀⟩ := hd
    by_cases h₀ : k₀ = k
    · subst h₀
      simp [mapUpsert, mapLookup, Ne.symm h]
    · simp [mapUpsert, mapLookup, h₀, ih]

theorem mapLookup_eq_none {α : Type} (m : List (String × α)) (k : String)
    (h : ∀ e ∈ m, e.1 ≠ k) : mapLookup m k = none := by
  induction m with
  | nil => simp [mapLookup]
  | cons hd tl ih =>
    have h1 : hd.1 ≠ k := h hd (List.mem_cons_self hd tl)
    have h2 : ∀ e ∈ tl, e.1 ≠ k := fun e he => h e (List.mem_cons_of_mem hd he)
    obtain ⟨k', v'⟩ := hd
    simp only [mapLookup]
    simp only [ne_eq] at h1
    simp [h1, ih h2]

/-- C8: the state store's Save operations are upserts and its Get operations
are total on missing keys — a missing instance or binding key yields a nil
result and no error; saving under an existing key replaces the record,
saving under a fresh key inserts it, for instances and bindings alike. -/
theorem claim_C8_store_upsert_get_total :
    (∀ (st : StoreState) (iid : String),
      (∀ e ∈ st.instances, e.1 ≠ iid) → GetInstance st iid = none)
    ∧ (∀ (st : StoreState) (bid : String),
      (∀ e ∈ st.bindings, e.1 ≠ bid) → GetBinding st bid = none)
    ∧ (∀ (st : StoreState) (now : Nat) (inst : ServiceInstance),
      GetInstance (SaveInstance st now inst) inst.id =
        some { inst with updatedAt := now })
    ∧ (∀ (st : StoreState) (now : Nat) (inst : ServiceInstance) (k : String),
      k ≠ inst.id →
      GetInstance (SaveInstance st now inst) k = GetInstance st k)
    ∧ (∀ (st : StoreState) (b : ServiceBinding),
      GetBinding (SaveBinding st b) b.id = some b)
    ∧ (∀ (st : StoreState) (b : ServiceBinding) (k : String),
      k ≠ b.id →
      GetBinding (SaveBinding st b) k = GetBinding st k) := by
  refine ⟨?_, ?_, ?_, ?_, ?_, ?_⟩
  · intro st iid h
    exact mapLookup_eq_none st.instances iid h
  · intro st bid h
    exact mapLookup_eq_none st.bindings bid h
  · intro st now inst
    simp [GetInstance, SaveInstance, mapLookup_upsert_self]
  · intro st now inst k hk
    simp [GetInstance, SaveInstance, mapLookup_upsert_ne _ _ _ _ hk]
  · intro st b
    simp [GetBinding, SaveBinding, mapLookup_upsert_self]
  · intro st b k hk
    simp [GetBinding, SaveBinding, mapLookup_upsert_ne _ _ _ _ hk]

/-- C8 witness: the store semantics evaluated at concrete states. -/
theorem claim_C8_witness :
    GetInstance { instances := [("instance-0001", wInstShared)] } "absent" = none
    ∧ GetBinding ({ } : StoreState) "absent" = none
    ∧ GetInstance
        (SaveInstance { instances := [("instance-0001", wInstShared)] } 7
          { wInstShared with bucketName := "replaced" }) "instance-0001" =
      some { wInstShared with bucketName := "replaced", updatedAt := 7 }
    ∧ GetInstance
        (SaveInstance ({ } : StoreState) 7 wInstShared) "other" =
      GetInstance ({ } : StoreState) "other"
    ∧ GetBinding (SaveBinding ({ } : StoreState) wBindingWithUser)
        "binding-0001" = some wBindingWithUser
    ∧ GetBinding (SaveBinding ({ } : StoreState) wBindingWithUser) "other" =
      GetBinding ({ } : StoreState) "other" := by
  obtain ⟨h1, h2, h3, h4, h5, h6⟩ := claim_C8_store_upsert_get_total
  refine ⟨h1 _ _ (by decide), h2 _ _ (by decide), ?_, ?_, ?_, ?_⟩
  · exact h3 { instances := [("instance-0001", wInstShared)] } 7
      { wInstShared with bucketName := "replaced" }
  · exact h4 ({ } : StoreState) 7 wInstShared "other" (by decide)
  · exact h5 ({ } : StoreState) wBindingWithUser
  · exact h6 ({ } : StoreState) wBindingWithUser "other" (by decide)

/-- C9: the name constructions slice the first 8 characters of identifiers
without validation — the shared bucket name is well-defined exactly when the
space GUID and the instance ID have ≥ 8 characters, the dedicated deployment
name and the generated-console dashboard URL exactly when the instance ID
has ≥ 8 characters — and a shared-plan provision request with shorter
identifiers makes the handler panic (no HTTP response) instead of returning
an error response. -/
theorem claim_C9_slice_preconditions :
    (∀ inst : ServiceInstance,
      (sharedBucketName inst).isSome ↔
        (8 ≤ inst.spaceGUID.length ∧ 8 ≤ inst.id.length))
    ∧ (∀ (c : Config) (inst : ServiceInstance),
      (dedicatedDeploymentName c inst).isSome ↔ 8 ≤ inst.id.length)
    ∧ (∀ (c : Config) (inst : ServiceInstance),
      inst.deploymentName ≠ "" → inst.consoleURL = "" →
      c.cf.systemDomain ≠ "" →
      ((getDashboardURL c inst).isSome ↔ 8 ≤ inst.id.length))
    ∧ (∀ (c : Config) (env : S3Env) (now : Nat) (st : StoreState)
        (iid : String) (req : ProvisionRequest) (ai : Bool) (plan : PlanConfig),
      GetInstance st iid = none →
      findPlan c req.serviceID req.planID = some plan →
      plan.planType = "shared" →
      s3ClientConfigured c →
      ¬ (8 ≤ req.spaceGUID.length ∧ 8 ≤ iid.length) →
      provisionHandler c env now st iid req ai = none) := by
  refine ⟨?_, ?_, ?_, ?_⟩
  · intro inst
    by_cases h1 : 8 ≤ inst.spaceGUID.length <;>
      by_cases h2 : 8 ≤ inst.id.length <;>
      simp [sharedBucketName, goSlice, h1, h2]
  · intro c inst
    by_cases h : 8 ≤ inst.id.length <;>
      simp [dedicatedDeploymentName, goSlice, h]
  · intro c inst hdep hcons hdom
    by_cases h : 8 ≤ inst.id.length <;>
      simp [getDashboardURL, goSlice, hdep, hcons, hdom, h]
  · intro c env now st iid req ai plan hlook hplan hshared hs3 hlen
    have hded : ¬ (plan.planType = "dedicated" ∧ ¬ ai) := by
      rintro ⟨h, -⟩
      rw [hshared] at h
      exact absurd h (by decide)
    by_cases h1 : 8 ≤ req.spaceGUID.length
    · have h2 : ¬ 8 ≤ iid.length := fun h2 => hlen ⟨h1, h2⟩
      simp [provisionHandler, hlook, hplan, hshared, hded,
        provisionSharedBucket, hs3, goSlice, h1, h2]
    · simp [provisionHandler, hlook, hplan, hshared, hded,
        provisionSharedBucket, hs3, goSlice, h1]

/-- C9 witness: concrete short and long identifiers. -/
theorem claim_C9_witness :
    (sharedBucketName wInstShared).isSome
    ∧ ¬ (sharedBucketName { wInstShared with spaceGUID := "short" }).isSome
    ∧ (dedicatedDeploymentName wConfig wInstDedicatedIAM).isSome
    ∧ ¬ (dedicatedDeploymentName wConfig
          { wInstDedicatedIAM with id := "tiny" }).isSome
    ∧ ((getDashboardURL wConfig wInstDedicatedNoIAM).isSome ↔
        8 ≤ wInstDedicatedNoIAM.id.length)
    ∧ provisionHandler wConfig { } 0 { } "tiny"
        { serviceID := "svc-1", planID := "plan-shared",
          spaceGUID := "space-00001" } false = none := by
  obtain ⟨h1, h2, h3, h4⟩ := claim_C9_slice_preconditions
  refine ⟨?_, ?_, ?_, ?_, ?_, ?_⟩
  · exact (h1 wInstShared).mpr (by decide)
  · intro hc
    have := (h1 { wInstShared with spaceGUID := "short" }).mp hc
    exact absurd this (by decide)
  · exact (h2 wConfig wInstDedicatedIAM).mpr (by decide)
  · intro hc
    have := (h2 wConfig { wInstDedicatedIAM with id := "tiny" }).mp hc
    exact absurd this (by decide)
  · exact h3 wConfig wInstDedicatedNoIAM (by decide) (by decide) (by decide)
  · exact h4 wConfig { } 0 { } "tiny"
      { serviceID := "svc-1", planID := "plan-shared",
        spaceGUID := "space-00001" } false wPlanShared rfl (by decide)
      rfl (by decide) (by decide)

/-- C5: a bind request against an existing instance whose state is not
succeeded returns 422 InstanceNotReady, leaves the store unchanged (no
binding record), and issues no credentials (empty effect trace). -/
theorem claim_C5_bind_requires_readiness
    (c : Config) (env : IAMEnv) (now : Nat) (st : StoreState)
    (iid bid : String) (req : BindRequest) (inst : ServiceInstance)
    (hlook : GetInstance st iid = some inst)
    (hstate : inst.state ≠ "succeeded") :
    bindHandler c env now st iid bid req =
      ({ status := 422, errorCode := some ("InstanceNotReady") }, st, []) := by
  simp [bindHandler, hlook, hstate]

/-- C5 witness: binding against a provisioning instance. -/
theorem claim_C5_witness :
    bindHandler wConfig wIAMEnvOK 3
      { instances := [("instance-0002", wInstProvisioning)] }
      "instance-0002" "binding-9" { } =
      ({ status := 422, errorCode := some ("InstanceNotReady") },
       { instances := [("instance-0002", wInstProvisioning)] }, []) :=
  claim_C5_bind_requires_readiness wConfig wIAMEnvOK 3
    { instances := [("instance-0002", wInstProvisioning)] }
    "instance-0002" "binding-9" { } wInstProvisioning (by decide) (by decide)

/-- C4: deprovision of an existing instance with at least one binding fails
with 400 BindingsExist and changes nothing; once no binding references the
instance, deprovision proceeds — asynchronously (202, background teardown
launched, state saved as deprovisioning) for dedicated plans, synchronously
(200, record deleted) for shared plans. -/
theorem claim_C4_deprovision_blocked_by_bindings :
    (∀ (c : Config) (env : S3Env) (now : Nat) (st : StoreState) (iid : String)
       (ai : Bool) (inst : ServiceInstance),
      GetInstance st iid = some inst →
      ListBindingsForInstance st iid ≠ [] →
      deprovisionHandler c env now st iid ai =
        ({ status := 400, errorCode := some ("BindingsExist") }, st, []))
    ∧ (∀ (c : Config) (env : S3Env) (now : Nat) (st : StoreState) (iid : String)
        (inst : ServiceInstance) (plan : PlanConfig),
      GetInstance st iid = some inst →
      ListBindingsForInstance st iid = [] →
      findPlan c inst.serviceID inst.planID = some plan →
      plan.planType = "dedicated" →
      deprovisionHandler c env now st iid true =
        ({ status := 202, operation := some ("deprovision") },
         SaveInstance st now { inst with state := "deprovisioning" },
         [.launchDeprovisionDedicated iid]))
    ∧ (∀ (c : Config) (env : S3Env) (now : Nat) (st : StoreState) (iid : String)
        (ai : Bool) (inst : ServiceInstance) (plan : PlanConfig),
      GetInstance st iid = some inst →
      ListBindingsForInstance st iid = [] →
      findPlan c inst.serviceID inst.planID = some plan →
      plan.planType = "shared" →
      deprovisionHandler c env now st iid ai =
        ({ status := 200 }, DeleteInstance st iid,
         (deprovisionSharedBucket c env inst).2)) := by
  refine ⟨?_, ?_, ?_⟩
  · intro c env now st iid ai inst hlook hbind
    have hlen : (ListBindingsForInstance st iid).length > 0 :=
      List.length_pos.mpr hbind
    simp [deprovisionHandler, hlook, hlen]
  · intro c env now st iid inst plan hlook hbind hplan hded
    have hlen : ¬ (ListBindingsForInstance st iid).length > 0 := by
      simp [hbind]
    have hex : ∃ p, findPlan c inst.serviceID inst.planID = some p ∧
        p.planType = "dedicated" := ⟨plan, hplan, hded⟩
    simp [deprovisionHandler, hlook, hlen, hex]
  · intro c env now st iid ai inst plan hlook hbind hplan hshared
    have hlen : ¬ (ListBindingsForInstance st iid).length > 0 := by
      simp [hbind]
    have hex : ¬ ∃ p, findPlan c inst.serviceID inst.planID = some p ∧
        p.planType = "dedicated" := by
      rintro ⟨p, hp, hpt⟩
      rw [hplan] at hp
      injection hp with hp
      rw [← hp] at hpt
      rw [hshared] at hpt
      exact absurd hpt (by decide)
    simp [deprovisionHandler, hlook, hlen, hex]

/-- C4 witness: a bound shared instance refuses deprovision; after the
binding is gone both plan types proceed. -/
theorem claim_C4_witness :
    deprovisionHandler wConfig { } 9
      { instances := [("instance-0001", wInstShared)]
        bindings := [("binding-0001", wBindingWithUser)] }
      "instance-0001" false =
      ({ status := 400, errorCode := some ("BindingsExist") },
       { instances := [("instance-0001", wInstShared)]
         bindings := [("binding-0001", wBindingWithUser)] }, [])
    ∧ deprovisionHandler wConfig { } 9
        { instances := [("instance-0004", wInstDedicatedIAM)] }
        "instance-0004" true =
      ({ status := 202, operation := some ("deprovision") },
       SaveInstance { instances := [("instance-0004", wInstDedicatedIAM)] } 9
         { wInstDedicatedIAM with state := "deprovisioning" },
       [.launchDeprovisionDedicated "instance-0004"])
    ∧ deprovisionHandler wConfig { } 9
        { instances := [("instance-0001", wInstShared)] }
        "instance-0001" false =
      ({ status := 200 },
       DeleteInstance { instances := [("instance-0001", wInstShared)] }
         "instance-0001",
       (deprovisionSharedBucket wConfig { } wInstShared).2) := by
  obtain ⟨h1, h2, h3⟩ := claim_C4_deprovision_blocked_by_bindings
  refine ⟨?_, ?_, ?_⟩
  · exact h1 wConfig { } 9 _ "instance-0001" false wInstShared (by decide)
      (by decide)
  · exact h2 wConfig { } 9 _ "instance-0004" wInstDedicatedIAM wPlanDedicated
      (by decide) (by decide) (by decide) (by decide)
  · exact h3 wConfig { } 9 _ "instance-0001" false wInstShared wPlanShared
      (by decide) (by decide) (by decide) (by decide)

/-- C3: unbind of an existing binding on an existing instance attempts to
revoke exactly the identity resources the binding created, in reverse
creation order — user policy, then the recorded access key, then the user,
and nothing when no IAM user was recorded — and no revocation failure fails
the unbind: for every revocation environment the binding record is deleted
and the handler returns 200. (The side conditions say an IAM client is
reachable for the cluster the binding was created on, which bind guarantees
whenever it records an IAM user.) -/
theorem claim_C3_unbind_best_effort
    (c : Config) (env : IAMDelEnv) (st : StoreState) (iid bid : String)
    (inst : ServiceInstance) (binding : ServiceBinding)
    (hlook : GetInstance st iid = some inst)
    (hbind : GetBinding st bid = some binding)
    (hreach : binding.iamUserName ≠ "" →
      (inst.deploymentName ≠ "" → inst.iamEndpoint ≠ "") ∧
      (inst.deploymentName = "" → iamClientConfigured c)) :
    unbindHandler c env st iid bid =
      ({ status := 200 }, DeleteBinding st bid,
       if binding.iamUserName = "" then []
       else
         [.iamDeleteUserPolicy binding.iamUserName
            ("bucket-access-" ++ binding.id.take 8)]
           ++ (if binding.accessKey ≠ "" then
                [.iamDeleteAccessKey binding.iamUserName binding.accessKey]
              else [])
           ++ [.iamDeleteUser binding.iamUserName]) := by
  by_cases huser : binding.iamUserName = ""
  · simp [unbindHandler, hlook, hbind, deleteS3Credentials, huser]
  · obtain ⟨hded, hsh⟩ := hreach huser
    have hskip1 : ¬ (inst.deploymentName ≠ "" ∧ inst.iamEndpoint = "") := by
      rintro ⟨hd, he⟩
      exact hded hd he
    have hskip2 : ¬ (inst.deploymentName = "" ∧ ¬ iamClientConfigured c) := by
      rintro ⟨hd, hc⟩
      exact hc (hsh hd)
    simp [unbindHandler, hlook, hbind, deleteS3Credentials, huser,
      hskip1, hskip2]

/-- C3 witness: unbind succeeds, deletes the binding, and issues the three
revocations in order even when every revocation call fails; a binding with
no recorded IAM user issues none. -/
theorem claim_C3_witness :
    unbindHandler wConfig wIAMDelEnvFail
      { instances := [("instance-0001", wInstShared)]
        bindings := [("binding-0001", wBindingWithUser)] }
      "instance-0001" "binding-0001" =
      ({ status := 200 },
       DeleteBinding
         { instances := [("instance-0001", wInstShared)]
           bindings := [("binding-0001", wBindingWithUser)] } "binding-0001",
       [.iamDeleteUserPolicy "cf-binding-binding-0001"
          ("bucket-access-" ++ "binding-0001".take 8),
        .iamDeleteAccessKey "cf-binding-binding-0001" "AKISSUED1",
        .iamDeleteUser "cf-binding-binding-0001"])
    ∧ unbindHandler wConfig wIAMDelEnvFail
        { instances := [("instance-0003", wInstDedicatedNoIAM)]
          bindings := [("binding-0002", wBindingNoUser)] }
        "instance-0003" "binding-0002" =
      ({ status := 200 },
       DeleteBinding
         { instances := [("instance-0003", wInstDedicatedNoIAM)]
           bindings := [("binding-0002", wBindingNoUser)] } "binding-0002",
       []) := by
  constructor
  · have h := claim_C3_unbind_best_effort wConfig wIAMDelEnvFail
      { instances := [("instance-0001", wInstShared)]
        bindings := [("binding-0001", wBindingWithUser)] }
      "instance-0001" "binding-0001" wInstShared wBindingWithUser
      (by decide) (by decide)
      (fun _ => ⟨fun hd => absurd rfl hd, fun _ => by decide⟩)
    simpa using h
  · have h := claim_C3_unbind_best_effort wConfig wIAMDelEnvFail
      { instances := [("instance-0003", wInstDedicatedNoIAM)]
        bindings := [("binding-0002", wBindingNoUser)] }
      "instance-0003" "binding-0002" wInstDedicatedNoIAM wBindingNoUser
      (by decide) (by decide)
      (fun hu => absurd rfl hu)
    simpa using h

theorem string_append_left_cancel {a x y : String} (h : a ++ x = a ++ y) :
    x = y := by
  have hd := congrArg String.data h
  simp [String.data_append] at hd
  exact String.ext hd

/-- C2 counterexample: on the dedicated-cluster admin-credential fallback
path (no IAM endpoint) two bindings with distinct IDs both receive the
instance's admin access-key/secret-key pair — identical pairs — and no
identity-API user name at all, so the claim's distinctness fails there. -/
theorem claim_C2_counterexample :
    ("binding-a1" : String) ≠ "binding-a2"
    ∧ createS3Credentials wConfig wIAMEnvOK wInstDedicatedNoIAM
        { id := "binding-a1", instanceID := "instance-0003" } =
      (.ok { id := "binding-a1", instanceID := "instance-0003",
             accessKey := "ADMINAK", secretKey := "ADMINSK",
             iamUserName := "" }, [])
    ∧ createS3Credentials wConfig wIAMEnvOK wInstDedicatedNoIAM
        { id := "binding-a2", instanceID := "instance-0003" } =
      (.ok { id := "binding-a2", instanceID := "instance-0003",
             accessKey := "ADMINAK", secretKey := "ADMINSK",
             iamUserName := "" }, []) := by
  refine ⟨by decide, ?_, ?_⟩ <;> rfl

/-- C2 as amended: off the admin-fallback path (shared cluster with an IAM
client, or dedicated cluster with an IAM endpoint), two bindings whose IDs
differ within their first 16 characters receive distinct identity-API user
names `cf-binding-<id[:16]>`, and their access-key/secret-key pairs are the
ones the identity API issued for those two user names — distinct whenever
the API issues distinct pairs; on the admin-fallback path both bindings
share the admin credentials and no user is created (see the
counterexample). -/
theorem claim_C2_amended_credential_uniqueness
    (c : Config) (env : IAMEnv) (inst : ServiceInstance)
    (b1 b2 : ServiceBinding) (p1 p2 : String × String)
    (hpath : (inst.deploymentName = "" ∧ iamClientConfigured c) ∨
             (inst.deploymentName ≠ "" ∧ inst.iamEndpoint ≠ ""))
    (hids : b1.id.take 16 ≠ b2.id.take 16)
    (hcu1 : env.createUser ("cf-binding-" ++ b1.id.take 16) = .ok ())
    (hcu2 : env.createUser ("cf-binding-" ++ b2.id.take 16) = .ok ())
    (hak1 : env.createAccessKey ("cf-binding-" ++ b1.id.take 16) = .ok p1)
    (hak2 : env.createAccessKey ("cf-binding-" ++ b2.id.take 16) = .ok p2)
    (hpairs : p1 ≠ p2) :
    createS3Credentials c env inst b1 =
      (.ok { b1 with iamUserName := "cf-binding-" ++ b1.id.take 16,
                     accessKey := p1.1, secretKey := p1.2 },
       [.iamCreateUser ("cf-binding-" ++ b1.id.take 16),
        .iamCreateAccessKey ("cf-binding-" ++ b1.id.take 16),
        .iamPutUserPolicy ("cf-binding-" ++ b1.id.take 16)
          ("bucket-access-" ++ b1.id.take 8) inst.bucketName])
    ∧ createS3Credentials c env inst b2 =
      (.ok { b2 with iamUserName := "cf-binding-" ++ b2.id.take 16,
                     accessKey := p2.1, secretKey := p2.2 },
       [.iamCreateUser ("cf-binding-" ++ b2.id.take 16),
        .iamCreateAccessKey ("cf-binding-" ++ b2.id.take 16),
        .iamPutUserPolicy ("cf-binding-" ++ b2.id.take 16)
          ("bucket-access-" ++ b2.id.take 8) inst.bucketName])
    ∧ ("cf-binding-" ++ b1.id.take 16) ≠ ("cf-binding-" ++ b2.id.take 16)
    ∧ (p1.1, p1.2) ≠ (p2.1, p2.2) := by
  have hfall : ¬ (inst.deploymentName ≠ "" ∧ inst.iamEndpoint = "") := by
    rintro ⟨hd, he⟩
    rcases hpath with ⟨hd', -⟩ | ⟨-, he'⟩
    · exact hd hd'
    · exact he' he
  have hsh : ¬ (inst.deploymentName = "" ∧ ¬ iamClientConfigured c) := by
    rintro ⟨hd, hc⟩
    rcases hpath with ⟨-, hc'⟩ | ⟨hd', -⟩
    · exact hc hc'
    · exact hd' hd
  refine ⟨?_, ?_, ?_, ?_⟩
  · simp [createS3Credentials, hfall, hsh, hcu1, hak1]
  · simp [createS3Credentials, hfall, hsh, hcu2, hak2]
  · intro h
    exact hids (string_append_left_cancel h)
  · intro h
    apply hpairs
    have h1 := congrArg Prod.fst h
    have h2 := congrArg Prod.snd h
    exact Prod.ext h1 h2

/-- C2 witness: two bindings on the shared-path instance with IDs differing
in their first 16 characters get distinct users and distinct issued pairs. -/
theorem claim_C2_witness :
    createS3Credentials wConfig wIAMEnvOK wInstShared
      { id := "binding-a1", instanceID := "instance-0001" } =
      (.ok { id := "binding-a1", instanceID := "instance-0001",
             iamUserName := "cf-binding-binding-a1",
             accessKey := "AK-cf-binding-binding-a1",
             secretKey := "SK-cf-binding-binding-a1" },
       [.iamCreateUser "cf-binding-binding-a1",
        .iamCreateAccessKey "cf-binding-binding-a1",
        .iamPutUserPolicy "cf-binding-binding-a1" "bucket-access-binding-"
          "cf-space-00-instance"])
    ∧ createS3Credentials wConfig wIAMEnvOK wInstShared
        { id := "binding-a2", instanceID := "instance-0001" } =
      (.ok { id := "binding-a2", instanceID := "instance-0001",
             iamUserName := "cf-binding-binding-a2",
             accessKey := "AK-cf-binding-binding-a2",
             secretKey := "SK-cf-binding-binding-a2" },
       [.iamCreateUser "cf-binding-binding-a2",
        .iamCreateAccessKey "cf-binding-binding-a2",
        .iamPutUserPolicy "cf-binding-binding-a2" "bucket-access-binding-"
          "cf-space-00-instance"])
    ∧ ("cf-binding-binding-a1" : String) ≠ "cf-binding-binding-a2"
    ∧ (("AK-cf-binding-binding-a1", "SK-cf-binding-binding-a1") :
        String × String) ≠
      ("AK-cf-binding-binding-a2", "SK-cf-binding-binding-a2") := by
  have h := claim_C2_amended_credential_uniqueness wConfig wIAMEnvOK
    wInstShared
    { id := "binding-a1", instanceID := "instance-0001" }
    { id := "binding-a2", instanceID := "instance-0001" }
    ("AK-cf-binding-binding-a1", "SK-cf-binding-binding-a1")
    ("AK-cf-binding-binding-a2", "SK-cf-binding-binding-a2")
    (Or.inl ⟨rfl, by decide⟩) (by decide) rfl rfl rfl rfl (by decide)
  exact h

/-- C1: provision is idempotent in the instance ID — a provision request
whose ID already exists returns 200 with that instance's current dashboard
URL, leaves the store unchanged and issues no external call; hence two
successive provisions of a fresh ID on the shared plan return the same
dashboard URL both times (201 then 200) and make exactly one bucket-creation
call in total, the store after the second call being the store after the
first. -/
theorem claim_C1_provision_idempotent :
    (∀ (c : Config) (env : S3Env) (now : Nat) (st : StoreState) (iid : String)
       (req : ProvisionRequest) (ai : Bool) (inst : ServiceInstance)
       (url : String),
      GetInstance st iid = some inst →
      getDashboardURL c inst = some url →
      provisionHandler c env now st iid req ai =
        some ({ status := 200, dashboardURL := some url }, st, []))
    ∧ (∀ (c : Config) (env : S3Env) (now now2 : Nat) (st : StoreState)
        (iid : String) (req : ProvisionRequest) (ai : Bool)
        (plan : PlanConfig),
      GetInstance st iid = none →
      findPlan c req.serviceID req.planID = some plan →
      plan.planType = "shared" →
      s3ClientConfigured c →
      8 ≤ req.spaceGUID.length → 8 ≤ iid.length →
      env.makeBucket ("cf-" ++ req.spaceGUID.take 8 ++ "-" ++ iid.take 8) =
        .ok () →
      ∃ st1,
        provisionHandler c env now st iid req ai =
          some ({ status := 201, dashboardURL := some ("") }, st1,
            [.makeBucket
              ("cf-" ++ req.spaceGUID.take 8 ++ "-" ++ iid.take 8)]) ∧
        provisionHandler c env now2 st1 iid req ai =
          some ({ status := 200, dashboardURL := some ("") }, st1, [])) := by
  constructor
  · intro c env now st iid req ai inst url hlook hurl
    simp [provisionHandler, hlook, hurl]
  · intro c env now now2 st iid req ai plan hlook hplan hshared hs3 hsg hid hmk
    have hded : ¬ (plan.planType = "dedicated" ∧ ¬ ai) := by
      rintro ⟨h, -⟩
      rw [hshared] at h
      exact absurd h (by decide)
    have hg1 : goSlice req.spaceGUID 8 = some (req.spaceGUID.take 8) := by
      simp [goSlice, hsg]
    have hg2 : goSlice iid 8 = some (iid.take 8) := by
      simp [goSlice, hid]
    refine ⟨SaveInstance st now
      { id := iid, serviceID := req.serviceID, planID := req.planID,
        organizationGUID := req.organizationGUID, spaceGUID := req.spaceGUID,
        parameters := req.parameters, context := req.context,
        createdAt := now,
        bucketName := "cf-" ++ req.spaceGUID.take 8 ++ "-" ++ iid.take 8,
        state := "succeeded" }, ?_, ?_⟩
    · simp [provisionHandler, provisionSharedBucket, hlook, hplan, hshared,
        hded, hs3, hg1, hg2, hmk, getDashboardURL]
    · have hlook2 : GetInstance (SaveInstance st now
          { id := iid, serviceID := req.serviceID, planID := req.planID,
            organizationGUID := req.organizationGUID,
            spaceGUID := req.spaceGUID,
            parameters := req.parameters, context := req.context,
            createdAt := now,
            bucketName := "cf-" ++ req.spaceGUID.take 8 ++ "-" ++ iid.take 8,
            state := "succeeded" }) iid =
          some
            { id := iid, serviceID := req.serviceID, planID := req.planID,
              organizationGUID := req.organizationGUID,
              spaceGUID := req.spaceGUID,
              parameters := req.parameters, context := req.context,
              createdAt := now, updatedAt := now,
              bucketName := "cf-" ++ req.spaceGUID.take 8 ++ "-" ++ iid.take 8,
              state := "succeeded" } := by
        simp [GetInstance, SaveInstance, mapLookup_upsert_self]
      simp [provisionHandler, hlook2, getDashboardURL]

/-- C1 witness: a re-provision of an existing instance, and two successive
fresh provisions on the shared plan. -/
theorem claim_C1_witness :
    provisionHandler wConfig { } 5
      { instances := [("instance-0001", wInstShared)] } "instance-0001"
      { serviceID := "svc-1", planID := "plan-shared",
        organizationGUID := "org-00001", spaceGUID := "space-00001" } false =
      some ({ status := 200, dashboardURL := some ("") },
        { instances := [("instance-0001", wInstShared)] }, [])
    ∧ ∃ st1,
      provisionHandler wConfig { } 5 { } "instance-0001"
        { serviceID := "svc-1", planID := "plan-shared",
          organizationGUID := "org-00001", spaceGUID := "space-00001" }
        false =
        some ({ status := 201, dashboardURL := some ("") }, st1,
          [.makeBucket
            ("cf-" ++ "space-00001".take 8 ++ "-" ++ "instance-0001".take 8)]) ∧
      provisionHandler wConfig { } 6 st1 "instance-0001"
        { serviceID := "svc-1", planID := "plan-shared",
          organizationGUID := "org-00001", spaceGUID := "space-00001" }
        false =
        some ({ status := 200, dashboardURL := some ("") }, st1, []) := by
  obtain ⟨h1, h2⟩ := claim_C1_provision_idempotent
  constructor
  · exact h1 wConfig { } 5 _ "instance-0001" _ false wInstShared ""
      (by decide) (by decide)
  · exact h2 wConfig { } 5 6 { } "instance-0001" _ false wPlanShared rfl rfl
      rfl (by decide) (by decide) (by decide) rfl

/-- C10: a fresh shared-plan provision whose bucket creation fails (and the
bucket does not exist) returns 500 ProvisionError and leaves the state store
unchanged — no instance record is persisted under the ID, so a retry with
the same ID still finds no instance and takes the fresh-provision path
rather than the idempotent-return path. -/
theorem claim_C10_failed_shared_provision_atomic
    (c : Config) (env : S3Env) (now : Nat) (st : StoreState) (iid : String)
    (req : ProvisionRequest) (ai : Bool) (plan : PlanConfig) (msg : String)
    (hlook : GetInstance st iid = none)
    (hplan : findPlan c req.serviceID req.planID = some plan)
    (hshared : plan.planType = "shared")
    (hs3 : s3ClientConfigured c)
    (hsg : 8 ≤ req.spaceGUID.length) (hid : 8 ≤ iid.length)
    (hmk : env.makeBucket
      ("cf-" ++ req.spaceGUID.take 8 ++ "-" ++ iid.take 8) = .error msg)
    (hex : env.bucketExists
      ("cf-" ++ req.spaceGUID.take 8 ++ "-" ++ iid.take 8) = .ok false) :
    provisionHandler c env now st iid req ai =
      some ({ status := 500, errorCode := some ("ProvisionError") }, st,
        [.makeBucket ("cf-" ++ req.spaceGUID.take 8 ++ "-" ++ iid.take 8)])
    ∧ GetInstance st iid = none := by
  have hded : ¬ (plan.planType = "dedicated" ∧ ¬ ai) := by
    rintro ⟨h, -⟩
    rw [hshared] at h
    exact absurd h (by decide)
  have hg1 : goSlice req.spaceGUID 8 = some (req.spaceGUID.take 8) := by
    simp [goSlice, hsg]
  have hg2 : goSlice iid 8 = some (iid.take 8) := by
    simp [goSlice, hid]
  refine ⟨?_, hlook⟩
  simp [provisionHandler, provisionSharedBucket, hlook, hplan, hshared,
    hded, hs3, hg1, hg2, hmk, hex]

/-- C10 witness: the failing environment at a concrete request. -/
theorem claim_C10_witness :
    provisionHandler wConfig wS3EnvFail 5 { } "instance-0001"
      { serviceID := "svc-1", planID := "plan-shared",
        organizationGUID := "org-00001", spaceGUID := "space-00001" } false =
      some ({ status := 500, errorCode := some ("ProvisionError") }, { },
        [.makeBucket
          ("cf-" ++ "space-00001".take 8 ++ "-" ++ "instance-0001".take 8)])
    ∧ GetInstance ({ } : StoreState) "instance-0001" = none :=
  claim_C10_failed_shared_provision_atomic wConfig wS3EnvFail 5 { }
    "instance-0001"
    { serviceID := "svc-1", planID := "plan-shared",
      organizationGUID := "org-00001", spaceGUID := "space-00001" } false
    wPlanShared "connection refused" rfl rfl rfl (by decide) (by decide)
    (by decide) rfl rfl

/-- C6 counterexample: elapsing the wall-clock timeout does NOT surface the
last known task result text. Two runs whose last known task results differ
("LASTRESULT" vs "DIFFERENT") produce the same timeout error
`task 42 timed out`, which moreover does not contain the result text. -/
theorem claim_C6_counterexample :
    WaitForTask (wPollStuck "LASTRESULT") 42 2 0 =
      .error ("task 42 timed out")
    ∧ WaitForTask (wPollStuck "DIFFERENT") 42 2 0 =
      .error ("task 42 timed out")
    ∧ ("LASTRESULT" : String) ≠ "DIFFERENT"
    ∧ ¬ List.IsInfix ("LASTRESULT".toList) ("task 42 timed out".toList) := by
  refine ⟨rfl, rfl, by decide, by decide⟩

/-- C6 as amended: WaitForTask polls until a terminal state — a task in
state done is returned as success; a task in a failure state (error,
cancelled, timeout) surfaces as an error carrying the state and the last
known task result text; a non-terminal state polls again with one poll
opportunity spent; but elapsing the wall-clock timeout surfaces as an error
naming only the task ID (`task N timed out`), without the last known task
result text. -/
theorem claim_C6_amended_waitfortask
    (getTask : Nat → Except String BoshTask) (taskID : Int) (fuel k : Nat)
    (task : BoshTask) :
    (getTask k = .ok task → task.state = "done" →
      WaitForTask getTask taskID (fuel + 1) k = .ok task)
    ∧ (getTask k = .ok task →
      (task.state = "error" ∨ task.state = "cancelled" ∨
        task.state = "timeout") →
      WaitForTask getTask taskID (fuel + 1) k =
        .error ("task " ++ toString taskID ++ " failed: " ++ task.state ++
          " - " ++ task.result))
    ∧ (getTask k = .ok task → task.state ≠ "done" →
      ¬ (task.state = "error" ∨ task.state = "cancelled" ∨
         task.state = "timeout") →
      WaitForTask getTask taskID (fuel + 1) k =
        WaitForTask getTask taskID fuel (k + 1))
    ∧ WaitForTask getTask taskID 0 k =
        .error ("task " ++ toString taskID ++ " timed out") := by
  refine ⟨?_, ?_, ?_, rfl⟩
  · intro hget hdone
    simp [WaitForTask, hget, hdone]
  · intro hget hfail
    have hnd : ¬ task.state = "done" := by
      rcases hfail with h | h | h <;> rw [h] <;> decide
    simp [WaitForTask, hget, hnd, hfail]
  · intro hget hnd hnf
    simp [WaitForTask, hget, hnd, hnf]

/-- C6 witness: the three terminal behaviours at concrete polls. -/
theorem claim_C6_witness :
    WaitForTask wPollDone 42 3 0 =
      .ok { id := 42, state := "done", result := "succeeded" }
    ∧ WaitForTask wPollFailed 42 3 0 =
      .error ("task " ++ toString (42 : Int) ++ " failed: " ++ "error" ++
        " - " ++ "deploy exploded")
    ∧ WaitForTask (wPollStuck "r") 42 1 0 = WaitForTask (wPollStuck "r") 42 0 1
    ∧ WaitForTask (wPollStuck "r") 42 0 5 =
      .error ("task " ++ toString (42 : Int) ++ " timed out") := by
  obtain ⟨h1, h2, h3, -⟩ := claim_C6_amended_waitfortask wPollDone 42 2 0
    { id := 42, state := "done", result := "succeeded" }
  obtain ⟨-, h2', -, -⟩ := claim_C6_amended_waitfortask wPollFailed 42 2 0
    { id := 42, state := "error", result := "deploy exploded" }
  obtain ⟨-, -, h3', -⟩ := claim_C6_amended_waitfortask (wPollStuck "r") 42 0 0
    { id := 42, state := "processing", result := "r" }
  obtain ⟨-, -, -, h4'⟩ := claim_C6_amended_waitfortask (wPollStuck "r") 42 0 5
    { id := 42, state := "processing", result := "r" }
  exact ⟨h1 rfl rfl, h2' rfl (by decide), h3' rfl (by decide) (by decide), h4'⟩

set_option maxHeartbeats 2000000 in
/-- C7: the deployment-descriptor generator is deterministic — equal (plan,
instance, config) inputs give byte-identical text — and flipping only the
route-registration condition (here: the NATS TLS `enabled` flag, the other
conjuncts of the condition being configured) adds or removes exactly the
route-registration content: the routing/bpm releases appended to the
releases section and the route_registrar/bpm jobs with their NATS
properties appended to the gateway jobs section, every other byte of the
descriptor (the shared template and both base sections) being identical. -/
theorem claim_C7_manifest_determinism_and_route_section :
    (∀ (c₁ c₂ : Config) (inst₁ inst₂ : ServiceInstance)
       (plan₁ plan₂ : PlanConfig),
      c₁ = c₂ → inst₁ = inst₂ → plan₁ = plan₂ →
      generateDedicatedManifest c₁ inst₁ plan₁ =
        generateDedicatedManifest c₂ inst₂ plan₂)
    ∧ (∀ (c : Config) (inst : ServiceInstance) (plan : PlanConfig),
      c.cf.deploymentName ≠ "" → c.cf.systemDomain ≠ "" →
      c.nats.tls.clientCert ≠ "" → c.nats.machines.length > 0 →
      8 ≤ inst.id.length →
      generateDedicatedManifest (withNatsTLSEnabled c false) inst plan =
        some (manifestTemplate c inst (normalizeDedicatedConfig plan)
          (releasesBase c) (s3JobsBase c inst))
      ∧ generateDedicatedManifest (withNatsTLSEnabled c true) inst plan =
        some (manifestTemplate c inst (normalizeDedicatedConfig plan)
          (releasesBase c ++ routingReleasesExtra c)
          (s3JobsBase c inst ++ routeRegistrarExtra c
            ("seaweedfs-" ++ inst.id.take 8 ++ "." ++ c.cf.systemDomain)))) := by
  constructor
  · intro c₁ c₂ inst₁ inst₂ plan₁ plan₂ hc hi hp
    rw [hc, hi, hp]
  · intro c inst plan hdep hdom hcert hmach hid
    have hg : goSlice inst.id 8 = some (inst.id.take 8) := by
      simp [goSlice, hid]
    have hno : ¬ canRouteRegister (withNatsTLSEnabled c false) := by
      rintro ⟨-, he, -, -⟩
      simp [withNatsTLSEnabled] at he
    have hyes : canRouteRegister (withNatsTLSEnabled c true) := by
      exact ⟨⟨hdep, hdom⟩, by simp [withNatsTLSEnabled], hcert, hmach⟩
    have hhost : ("seaweedfs-" ++ inst.id.take 8 ++ "." ++
        c.cf.systemDomain) ≠ "" := by
      intro h
      have hl := congrArg String.length h
      simp only [String.length_append] at hl
      have e1 : "seaweedfs-".length = 10 := rfl
      have e2 : ".".length = 1 := rfl
      have e3 : ("" : String).length = 0 := rfl
      omega
    have hhost' : ("seaweedfs-" ++ inst.id.take 8 ++ "." ++
        (withNatsTLSEnabled c true).cf.systemDomain) ≠ "" := hhost
    constructor
    · unfold generateDedicatedManifest
      rw [if_neg hno]
      simp only [Option.map_some]
      simp only [hno, false_and, if_false, ite_false, String.append_empty]
      rfl
    · unfold generateDedicatedManifest
      rw [if_pos hyes, hg]
      simp only [Option.map_some]
      simp only [hyes, hhost', ne_eq, not_false_iff, true_and, and_true,
        if_true, ite_true]
      simp only [Option.map_some']
      simp only [hhost', ne_eq, not_false_iff, ite_true, if_true]
      rfl

/-- C7 witness: the generator evaluated at the concrete configuration, with
route registration off and on. -/
theorem claim_C7_witness :
    generateDedicatedManifest wConfig wInstDedicatedIAM wPlanDedicated =
      generateDedicatedManifest wConfig wInstDedicatedIAM wPlanDedicated
    ∧ generateDedicatedManifest (withNatsTLSEnabled wConfig false)
        wInstDedicatedIAM wPlanDedicated =
      some (manifestTemplate wConfig wInstDedicatedIAM
        (normalizeDedicatedConfig wPlanDedicated)
        (releasesBase wConfig) (s3JobsBase wConfig wInstDedicatedIAM))
    ∧ generateDedicatedManifest (withNatsTLSEnabled wConfig true)
        wInstDedicatedIAM wPlanDedicated =
      some (manifestTemplate wConfig wInstDedicatedIAM
        (normalizeDedicatedConfig wPlanDedicated)
        (releasesBase wConfig ++ routingReleasesExtra wConfig)
        (s3JobsBase wConfig wInstDedicatedIAM ++
          routeRegistrarExtra wConfig
            ("seaweedfs-" ++ wInstDedicatedIAM.id.take 8 ++ "." ++
              wConfig.cf.systemDomain))) := by
  obtain ⟨hdet, hsec⟩ := claim_C7_manifest_determinism_and_route_section
  obtain ⟨hoff, hon⟩ := hsec wConfig wInstDedicatedIAM wPlanDedicated
    (by decide) (by decide) (by decide) (by decide) (by decide)
  exact ⟨hdet wConfig wConfig wInstDedicatedIAM wInstDedicatedIAM
    wPlanDedicated wPlanDedicated rfl rfl rfl, hoff, hon⟩
